import Mathlib

/-!
Shallow embedding of the `fiddlingwithrustreflection` repository
(src/src/internal.rs and src/src/lib.rs): a dirty-tracking field wrapper
with version gating, a per-object field-to-parameter mapping, and the
modification-command builder described by the specification.

Rust's `u32` version components are modelled as `Nat`: the code only
compares them (no arithmetic), so no overflow behaviour is involved.
Mutable dereference (`DerefMut`) is modelled as a state transition
returning the updated field together with the list of warning diagnostics
the call emits; the diagnostic text is abstracted to a fixed string per
branch (the claims only depend on whether a diagnostic is emitted).
-/

set_option linter.dupNamespace false
set_option linter.unusedVariables false

namespace RustRefl

/-- `SoftwareVersion { major: u32, minor: u32 }` (src/src/internal.rs:13-17). -/
structure SoftwareVersion where
  major : Nat
  minor : Nat
  deriving DecidableEq, Repr

/-- `SoftwareVersion::new` (src/src/internal.rs:44-46). -/
def SoftwareVersion.new (major minor : Nat) : SoftwareVersion :=
  { major := major, minor := minor }

/-- `PartialOrd::lt` for `SoftwareVersion` (src/src/internal.rs:29-31):
`self.major < other.major || (self.major == other.major && self.minor < other.minor)`. -/
def SoftwareVersion.lt (self other : SoftwareVersion) : Bool :=
  self.major < other.major || (self.major == other.major && self.minor < other.minor)

/-- `PartialOrd::gt` for `SoftwareVersion` (src/src/internal.rs:23-25). The source
reads `self.major > other.major || (self.major == other.major && self.minor > other.major)`:
the second disjunct compares `self.minor` against `other.major`, transcribed as written. -/
def SoftwareVersion.gt (self other : SoftwareVersion) : Bool :=
  self.major > other.major || (self.major == other.major && self.minor > other.major)

/-- `PartialOrd::le` for `SoftwareVersion` (src/src/internal.rs:26-28):
`self == other || self < other`. -/
def SoftwareVersion.le (self other : SoftwareVersion) : Bool :=
  self == other || SoftwareVersion.lt self other

/-- `PartialOrd::ge` for `SoftwareVersion` (src/src/internal.rs:20-22):
`self == other || self > other`. -/
def SoftwareVersion.ge (self other : SoftwareVersion) : Bool :=
  self == other || SoftwareVersion.gt self other

/-- `const SYSTEM_VERSION: SoftwareVersion = SoftwareVersion::new(3, 188)`
(src/src/lib.rs:17). -/
def SYSTEM_VERSION : SoftwareVersion := SoftwareVersion.new 3 188

/-- `FieldInner<InnerType, FieldEnum>` (src/src/internal.rs:52-60). -/
structure FieldInner (T : Type) (FieldEnum : Type) where
  min_version : Option SoftwareVersion
  max_version : Option SoftwareVersion
  field_name : String
  field_enum : FieldEnum
  value : T
  old_value : Option T
  deriving Repr

/-- `VersionFilter` (src/src/internal.rs:62-67). -/
inductive VersionFilter where
  | MinVersion : SoftwareVersion → VersionFilter
  | MaxVersion : SoftwareVersion → VersionFilter
  | VersionRange : SoftwareVersion → SoftwareVersion → VersionFilter
  deriving Repr

/-- `VersionFilter::min_version` (src/src/internal.rs:70-72). -/
def VersionFilter.min_version (version : SoftwareVersion) : VersionFilter :=
  VersionFilter.MinVersion version

/-- `VersionFilter::max_version` (src/src/internal.rs:74-76). -/
def VersionFilter.max_version (version : SoftwareVersion) : VersionFilter :=
  VersionFilter.MaxVersion version

/-- `VersionFilter::version_range` (src/src/internal.rs:78-80). -/
def VersionFilter.version_range (mn mx : SoftwareVersion) : VersionFilter :=
  VersionFilter.VersionRange mn mx

/-- `Field<T, FieldEnum>` (src/src/internal.rs:83-87): a plain field or a
versioned field carrying a `VersionFilter` alongside the same inner record. -/
inductive Field (T : Type) (FieldEnum : Type) where
  | Field : FieldInner T FieldEnum → Field T FieldEnum
  | VersionedField : FieldInner T FieldEnum → VersionFilter → Field T FieldEnum
  deriving Repr

/-- `FieldInner::new` (src/src/internal.rs:99-110). Rust fills `value` with
`T::default()`; the default value is passed explicitly here. Both version
bounds start as `None` and `old_value` as `None`. -/
def FieldInner.new {T FieldEnum : Type} (d : T) (field_name : String)
    (field : FieldEnum) : FieldInner T FieldEnum :=
  { field_name := field_name
    min_version := none
    max_version := none
    value := d
    old_value := none
    field_enum := field }

/-- `Field::new` (src/src/internal.rs:90-92). -/
def Field.new {T FieldEnum : Type} (d : T) (field_name : String)
    (field : FieldEnum) : RustRefl.Field T FieldEnum :=
  .Field (FieldInner.new d field_name field)

/-- `Field::new_versioned` (src/src/internal.rs:94-96): the filter is stored
only in the `VersionedField` variant; the inner record is built by
`FieldInner::new` exactly as for a plain field. -/
def Field.new_versioned {T FieldEnum : Type} (d : T) (field_name : String)
    (field : FieldEnum) (versions : VersionFilter) : RustRefl.Field T FieldEnum :=
  .VersionedField (FieldInner.new d field_name field) versions

/-- `Deref for FieldInner` (src/src/internal.rs:131-136): read access returns
the current value, no side effect. -/
def FieldInner.get {T FieldEnum : Type} (self : FieldInner T FieldEnum) : T :=
  self.value

/-- `DerefMut for FieldInner` (src/src/internal.rs:138-163), as a state
transition. First, when `old_value` is `None` the current value is
snapshotted into it; then each populated version bound is compared with
`SYSTEM_VERSION` (`<` for the minimum, `>` for the maximum) and a warning
is emitted when the bound is violated. The warning text is abstracted. -/
def FieldInner.deref_mut {T FieldEnum : Type} (self : FieldInner T FieldEnum) :
    FieldInner T FieldEnum × List String :=
  let snapped :=
    if self.old_value.isNone then { self with old_value := some self.value } else self
  let w1 : List String :=
    match snapped.min_version with
    | some mv =>
        if SoftwareVersion.lt SYSTEM_VERSION mv then
          ["Field not supported, below min version"]
        else []
    | none => []
  let w2 : List String :=
    match snapped.max_version with
    | some mv =>
        if SoftwareVersion.gt SYSTEM_VERSION mv then
          ["Field not supported, above max version"]
        else []
    | none => []
  (snapped, w1 ++ w2)

/-- A write through the mutable reference returned by `deref_mut`: the Rust
statement `*field = v` is `(field.deref_mut).1` with `value` replaced. -/
def FieldInner.set {T FieldEnum : Type} (self : FieldInner T FieldEnum) (v : T) :
    FieldInner T FieldEnum × List String :=
  let r := self.deref_mut
  ({ r.1 with value := v }, r.2)

/-- The inner record of either `Field` variant (src/src/internal.rs:112-129:
both `Deref` and `DerefMut` for `Field` delegate to the inner). -/
def Field.inner {T FieldEnum : Type} : RustRefl.Field T FieldEnum → FieldInner T FieldEnum
  | .Field i => i
  | .VersionedField i _ => i

/-- `Deref for Field` (src/src/internal.rs:112-120): delegates to the inner
record's read access. -/
def Field.get {T FieldEnum : Type} (self : RustRefl.Field T FieldEnum) : T :=
  self.inner.get

/-- `DerefMut for Field` (src/src/internal.rs:122-129): delegates to
`FieldInner::deref_mut` on the inner record, keeping the variant (and, for a
versioned field, its filter) unchanged. -/
def Field.deref_mut {T FieldEnum : Type} :
    RustRefl.Field T FieldEnum → RustRefl.Field T FieldEnum × List String
  | .Field i =>
      let r := i.deref_mut
      (.Field r.1, r.2)
  | .VersionedField i f =>
      let r := i.deref_mut
      (.VersionedField r.1 f, r.2)

/-- `*field = v` through the `Field` wrapper: mutable dereference, then the
write. -/
def Field.set {T FieldEnum : Type} :
    RustRefl.Field T FieldEnum → T → RustRefl.Field T FieldEnum × List String
  | .Field i, v =>
      let r := i.set v
      (.Field r.1, r.2)
  | .VersionedField i f, v =>
      let r := i.set v
      (.VersionedField r.1 f, r.2)

/-- The `old_value` accessor on the inner record (the spec's
`old_value() -> Option<&T>`; the struct field is src/src/internal.rs:59). -/
def FieldInner.read_old {T FieldEnum : Type} (self : FieldInner T FieldEnum) :
    Option T :=
  self.old_value

/-- `old_value()` on a `Field`, through the inner record. -/
def Field.old_value {T FieldEnum : Type} (self : RustRefl.Field T FieldEnum) : Option T :=
  self.inner.old_value

/-- Modelled from the spec: `is_dirty() -> bool` is named in §4.3 but absent
from src/. The spec's invariant (§3) makes `old_value` present iff the field
is Dirty, and the repository's commented-out builder sketch
(src/src/internal.rs:221-230) tests dirtiness as `inner.old_value.is_some()`,
so dirtiness is modelled as the presence of `old_value`. -/
def FieldInner.is_dirty {T FieldEnum : Type} (self : FieldInner T FieldEnum) :
    Bool :=
  self.old_value.isSome

/-- `is_dirty()` on a `Field`, through the inner record. -/
def Field.is_dirty {T FieldEnum : Type} (self : RustRefl.Field T FieldEnum) : Bool :=
  self.inner.is_dirty

/-- Modelled from the spec: `clear_dirty()` is named in §4.3 but absent from
src/. It "drops old_value, transitions to Clean" and is idempotent. -/
def FieldInner.clear_dirty {T FieldEnum : Type} (self : FieldInner T FieldEnum) :
    FieldInner T FieldEnum :=
  { self with old_value := none }

/-- `clear_dirty()` on a `Field`, keeping the variant. -/
def Field.clear_dirty {T FieldEnum : Type} :
    RustRefl.Field T FieldEnum → RustRefl.Field T FieldEnum
  | .Field i => .Field i.clear_dirty
  | .VersionedField i f => .VersionedField i.clear_dirty f

/-- `CommandType` (src/src/internal.rs:181-185). -/
inductive CommandType where
  | Create
  | Modify
  | Delete
  deriving DecidableEq, Repr

/-- `Parameter` (src/src/internal.rs:187-190): a value parameter name or a
flag name (`&'static str` modelled as `String`). -/
inductive Parameter where
  | Parameter : String → Parameter
  | Flag : String → Parameter
  deriving DecidableEq, Repr

/-- `UserFields` (src/src/lib.rs:19-25); `Id` is the `#[default]` variant. -/
inductive UserFields where
  | Id
  | Name
  | RoleId
  deriving DecidableEq, Repr

/-- `UserFields::get_parameter` (src/src/lib.rs:27-46), the `FieldParameter`
implementation for the `User` object. The Rust trait bound
`FieldType: IsEmpty` is passed as the function `is_empty`; `unreachable!()`
on the `Id` identity is modelled as `Except.error`; `new_value.is_empty()`
dereferences through the inner record to its current value. -/
def UserFields.get_parameter {FieldType : Type} (is_empty : FieldType → Bool)
    (self : UserFields) (command_type : CommandType)
    (old_v new_value : FieldInner FieldType UserFields) :
    Except String Parameter :=
  match self with
  | UserFields.Id => Except.error "unreachable"
  | UserFields.Name =>
      if is_empty new_value.value then Except.ok (Parameter.Flag "-reset_name")
      else Except.ok (Parameter.Parameter "-set_name")
  | UserFields.RoleId => Except.ok (Parameter.Parameter "-set_roleid")

/-- `User` (src/src/lib.rs:48-53): id and role_id hold `u32` (modelled as
`Nat`), name holds a `String`; all three keyed by `UserFields`. -/
structure User where
  id : Field Nat UserFields
  name : Field String UserFields
  role_id : Field Nat UserFields

/-- `IdentifiableObject::get_id` for `User` (src/src/lib.rs:55-59): `*self.id`. -/
def User.get_id (self : User) : Nat :=
  self.id.get

/-- `ModifiableObject::get_modify_command` for `User` (src/src/lib.rs:61-65). -/
def User.get_modify_command (self : User) : String :=
  "update_user"

/-- `Default for User` (src/src/lib.rs:67-79): id and name are plain fields,
role_id is versioned with `MinVersion(4, 12)`; `u32` defaults to 0 and
`String` to the empty string. -/
def User.default : User :=
  { id := Field.new 0 "id" UserFields.Id
    name := Field.new "" "name" UserFields.Name
    role_id := Field.new_versioned 0 "role_id" UserFields.RoleId
      (VersionFilter.min_version (SoftwareVersion.new 4 12)) }

/-- Modelled from the spec: the three-way result of `applies_at` (§4.2),
absent from src/. -/
inductive VersionSupport where
  | Supported
  | BelowMin
  | AboveMax
  deriving DecidableEq, Repr

/-- Modelled from the spec: `VersionFilter::applies_at(version)` (§4.2) is
described by the spec but absent from src/. MinVersion yields BelowMin iff
the supplied version is below the bound, MaxVersion yields AboveMax iff it
is above, VersionRange yields whichever bound is violated, and otherwise
Supported. The comparisons are the source's `SoftwareVersion` operators. -/
def VersionFilter.applies_at : VersionFilter → SoftwareVersion → VersionSupport
  | VersionFilter.MinVersion v, version =>
      if SoftwareVersion.lt version v then VersionSupport.BelowMin
      else VersionSupport.Supported
  | VersionFilter.MaxVersion v, version =>
      if SoftwareVersion.gt version v then VersionSupport.AboveMax
      else VersionSupport.Supported
  | VersionFilter.VersionRange mn mx, version =>
      if SoftwareVersion.lt version mn then VersionSupport.BelowMin
      else if SoftwareVersion.gt version mx then VersionSupport.AboveMax
      else VersionSupport.Supported

/-- Modelled from the spec: `ModificationCommand` with object_id,
command_name and the ordered parameter list (§3); src/ declares only an
empty struct (src/src/internal.rs:211-212) and the builder is commented
out. -/
structure ModificationCommand where
  object_id : Nat
  command_name : String
  parameters : List Parameter
  deriving DecidableEq, Repr

/-- Modelled from the spec: `BuildResult` (§4.5) — a command or `NoChange`. -/
inductive BuildResult where
  | Command : ModificationCommand → BuildResult
  | NoChange : BuildResult
  deriving DecidableEq, Repr

/-- The old snapshot of a dirty field handed to the mapping (§4.5
"old snapshot"): the inner record with the captured old value restored as
the current one. -/
def FieldInner.old_snapshot {T FieldEnum : Type} (self : FieldInner T FieldEnum) :
    FieldInner T FieldEnum :=
  { self with value := self.old_value.getD self.value, old_value := none }

/-- Sequencing of the per-field mapping results: the first failed encoding
(a reached `unreachable!`) aborts the build. -/
def collectParams : List (Except String Parameter) → Except String (List Parameter)
  | [] => Except.ok []
  | Except.error e :: _ => Except.error e
  | Except.ok p :: rest =>
      match collectParams rest with
      | Except.error e => Except.error e
      | Except.ok ps => Except.ok (p :: ps)

/-- Modelled from the spec: the field-enumeration step of the builder (§4.5)
for `User`, in declaration order (id, name, role_id). Each dirty field is
encoded through its stored `field_enum` identity via
`UserFields::get_parameter`, with (command kind, old snapshot, current
record). `u32` has no `IsEmpty` impl in src/, so the numeric fields use the
constantly-false emptiness test. -/
def User.dirty_results (u : User) (ct : CommandType) :
    List (Except String Parameter) :=
  (if u.id.is_dirty then
    [UserFields.get_parameter (fun _ => false) u.id.inner.field_enum ct
      u.id.inner.old_snapshot u.id.inner]
  else []) ++
  (if u.name.is_dirty then
    [UserFields.get_parameter String.isEmpty u.name.inner.field_enum ct
      u.name.inner.old_snapshot u.name.inner]
  else []) ++
  (if u.role_id.is_dirty then
    [UserFields.get_parameter (fun _ => false) u.role_id.inner.field_enum ct
      u.role_id.inner.old_snapshot u.role_id.inner]
  else [])

/-- Modelled from the spec: `build(object, command_kind)` (§4.5) for `User`:
enumerate the fields in declaration order, keep the dirty ones, encode each
through the object's mapping, return `NoChange` on an empty list and
otherwise a command carrying `get_id` and `get_modify_command`. A failed
encoding (`unreachable!` reached) propagates as an error. -/
def ModificationCommand.build (u : User) (ct : CommandType) :
    Except String BuildResult :=
  match collectParams (u.dirty_results ct) with
  | Except.error e => Except.error e
  | Except.ok [] => Except.ok BuildResult.NoChange
  | Except.ok ps =>
      Except.ok (BuildResult.Command
        { object_id := u.get_id
          command_name := u.get_modify_command
          parameters := ps })

/-- The default User with its name field written to "bob" and its role_id
field written to 7: both of those fields dirty, the id field clean. -/
def userBothDirty : User :=
  { User.default with
    name := (User.default.name.set "bob").1
    role_id := (User.default.role_id.set 7).1 }

/-- C1: for a Field in the Clean state (old_value absent), one mutating
write stores the pre-mutation value in old_value; a second mutating write
without an intervening clear leaves old_value at the original pre-mutation
value, never the intermediate one; and on every Field, old_value is present
exactly when the field is dirty. -/
theorem C1_old_value_window {T E : Type} (f : Field T E)
    (h : f.old_value = none) (v w : T) :
    ((f.set v).1).old_value = some f.get ∧
    ((((f.set v).1).set w).1).old_value = some f.get ∧
    ∀ g : Field T E, g.is_dirty = g.old_value.isSome := by
  refine ⟨?_, ?_, ?_⟩
  · cases f <;>
      simp_all [Field.set, FieldInner.set, FieldInner.deref_mut, Field.old_value,
        Field.inner, Field.get, FieldInner.get]
  · cases f <;>
      simp_all [Field.set, FieldInner.set, FieldInner.deref_mut, Field.old_value,
        Field.inner, Field.get, FieldInner.get]
  · intro g
    cases g <;> simp [Field.is_dirty, Field.inner, FieldInner.is_dirty, Field.old_value]

/-- C1 witness: the property at the concrete clean field
`Field.new 0 "id" Id`, written to 1 and then to 2: old_value stays `some 0`. -/
theorem C1_old_value_window_witness :
    (((Field.new (0 : Nat) "id" UserFields.Id).set 1).1).old_value = some 0 ∧
    ((((Field.new (0 : Nat) "id" UserFields.Id).set 1).1).set 2).1.old_value = some 0 ∧
    ∀ g : Field Nat UserFields, g.is_dirty = g.old_value.isSome := by
  have h := C1_old_value_window (Field.new (0 : Nat) "id" UserFields.Id) rfl 1 2
  simpa [Field.new, FieldInner.new, Field.get, Field.inner, FieldInner.get] using h

/-- C2: counterexample to the claimed total order, at the versions (5,1) and
(5,3) — equal major, minors 1 < 3. The source's `lt` holds and the versions
differ, yet `gt` on the swapped pair is false, because the source's `gt`
compares `self.minor` with `other.major`. -/
theorem C2_gt_counterexample :
    SoftwareVersion.lt (SoftwareVersion.new 5 1) (SoftwareVersion.new 5 3) = true ∧
    SoftwareVersion.gt (SoftwareVersion.new 5 3) (SoftwareVersion.new 5 1) = false ∧
    decide (SoftwareVersion.new 5 1 = SoftwareVersion.new 5 3) = false := by
  decide

/-- C3: at the failing input — the default User's versioned role_id field,
declared `MinVersion (4,12)`, written to 7 while `SYSTEM_VERSION = (3,188)`
is below that minimum — the mutation succeeds (value becomes 7, the field
is Dirty with old value 0 captured) but the emitted diagnostic list is
empty: no warning is produced, because `new_versioned` leaves the inner
record's version bounds `None`. -/
theorem C3_versioned_write_emits_no_diagnostic :
    SoftwareVersion.lt SYSTEM_VERSION (SoftwareVersion.new 4 12) = true ∧
    ((User.default.role_id.set 7).1).get = 7 ∧
    ((User.default.role_id.set 7).1).is_dirty = true ∧
    ((User.default.role_id.set 7).1).old_value = some 0 ∧
    (User.default.role_id.set 7).2 = [] := by
  decide

/-- C4: both public constructors leave the inner record's min_version and
max_version `None`; a mutating dereference of any inner record whose bounds
are both `None` emits no warnings; and a write never changes the bounds —
so the version-warning branches of the mutating dereference are unreachable
for every constructor-built field. -/
theorem C4_constructor_bounds_none {T E : Type} (d : T) (nm : String) (fe : E)
    (vf : VersionFilter) :
    ((Field.new d nm fe).inner.min_version = none ∧
      (Field.new d nm fe).inner.max_version = none) ∧
    ((Field.new_versioned d nm fe vf).inner.min_version = none ∧
      (Field.new_versioned d nm fe vf).inner.max_version = none) ∧
    (∀ i : FieldInner T E, i.min_version = none → i.max_version = none →
      (i.deref_mut).2 = []) ∧
    (∀ (i : FieldInner T E) (v : T),
      ((i.set v).1).min_version = i.min_version ∧
      ((i.set v).1).max_version = i.max_version) := by
  refine ⟨⟨rfl, rfl⟩, ⟨rfl, rfl⟩, ?_, ?_⟩
  · intro i h1 h2
    by_cases h : i.old_value.isNone <;>
      simp [FieldInner.deref_mut, h, h1, h2]
  · intro i v
    by_cases h : i.old_value.isNone <;>
      simp [FieldInner.set, FieldInner.deref_mut, h]

/-- C4 witness: the inner record built for the versioned role_id field emits
no warning on a mutating dereference. -/
theorem C4_constructor_bounds_none_witness :
    ((FieldInner.new (0 : Nat) "role_id" UserFields.RoleId).deref_mut).2 = [] :=
  (C4_constructor_bounds_none (0 : Nat) "role_id" UserFields.RoleId
      (VersionFilter.MinVersion (SoftwareVersion.new 4 12))).2.2.1
    (FieldInner.new (0 : Nat) "role_id" UserFields.RoleId) rfl rfl

/-- C5: building for a User with no dirty fields yields NoChange; a built
command never carries an empty parameter list and always carries the
object's id and its modify-command name; with the id field clean, the
declared field identities in place and both name and role_id dirty, the
parameters are the two encodings in declaration order (name before
role_id); and with at least one of them dirty the result is a command with
a non-empty parameter list. -/
theorem C5_build_shape (u : User) (ct : CommandType) :
    (u.id.is_dirty = false → u.name.is_dirty = false → u.role_id.is_dirty = false →
      ModificationCommand.build u ct = Except.ok BuildResult.NoChange) ∧
    (∀ mc : ModificationCommand,
      ModificationCommand.build u ct = Except.ok (BuildResult.Command mc) →
      mc.parameters ≠ [] ∧ mc.object_id = u.get_id ∧
      mc.command_name = u.get_modify_command) ∧
    (∀ p : Parameter, u.id.is_dirty = false →
      u.name.inner.field_enum = UserFields.Name →
      u.role_id.inner.field_enum = UserFields.RoleId →
      u.name.is_dirty = true → u.role_id.is_dirty = true →
      UserFields.get_parameter String.isEmpty UserFields.Name ct
        u.name.inner.old_snapshot u.name.inner = Except.ok p →
      ModificationCommand.build u ct = Except.ok (BuildResult.Command
        { object_id := u.get_id, command_name := u.get_modify_command,
          parameters := [p, Parameter.Parameter "-set_roleid"] })) ∧
    (u.id.is_dirty = false →
      u.name.inner.field_enum = UserFields.Name →
      u.role_id.inner.field_enum = UserFields.RoleId →
      (u.name.is_dirty = true ∨ u.role_id.is_dirty = true) →
      ∃ ps : List Parameter, ps ≠ [] ∧
        ModificationCommand.build u ct = Except.ok (BuildResult.Command
          { object_id := u.get_id, command_name := u.get_modify_command,
            parameters := ps })) := by
  refine ⟨?_, ?_, ?_, ?_⟩
  · intro h1 h2 h3
    simp [ModificationCommand.build, User.dirty_results, h1, h2, h3, collectParams]
  · intro mc hmc
    rcases hc : collectParams (u.dirty_results ct) with e | ps
    · simp [ModificationCommand.build, hc] at hmc
    · cases ps with
      | nil => simp [ModificationCommand.build, hc] at hmc
      | cons p rest =>
          simp [ModificationCommand.build, hc] at hmc
          simp [← hmc]
  · intro p h1 hn hr h2 h3 hp
    by_cases he : u.name.inner.value.isEmpty = true
    · simp [UserFields.get_parameter, he] at hp
      simp [ModificationCommand.build, User.dirty_results, h1, h2, h3, hn, hr,
        collectParams, UserFields.get_parameter, he, ← hp]
    · simp only [Bool.not_eq_true] at he
      simp [UserFields.get_parameter, he] at hp
      simp [ModificationCommand.build, User.dirty_results, h1, h2, h3, hn, hr,
        collectParams, UserFields.get_parameter, he, ← hp]
  · intro h1 hn hr hd
    by_cases h2 : u.name.is_dirty = true
    · by_cases he : u.name.inner.value.isEmpty = true
      · by_cases h3 : u.role_id.is_dirty = true
        · exact ⟨[Parameter.Flag "-reset_name", Parameter.Parameter "-set_roleid"],
            by simp, by
            simp [ModificationCommand.build, User.dirty_results, h1, h2, h3, hn,
              hr, collectParams, UserFields.get_parameter, he]⟩
        · simp only [Bool.not_eq_true] at h3
          exact ⟨[Parameter.Flag "-reset_name"], by simp, by
            simp [ModificationCommand.build, User.dirty_results, h1, h2, h3, hn,
              hr, collectParams, UserFields.get_parameter, he]⟩
      · simp only [Bool.not_eq_true] at he
        by_cases h3 : u.role_id.is_dirty = true
        · exact ⟨[Parameter.Parameter "-set_name", Parameter.Parameter "-set_roleid"],
            by simp, by
            simp [ModificationCommand.build, User.dirty_results, h1, h2, h3, hn,
              hr, collectParams, UserFields.get_parameter, he]⟩
        · simp only [Bool.not_eq_true] at h3
          exact ⟨[Parameter.Parameter "-set_name"], by simp, by
            simp [ModificationCommand.build, User.dirty_results, h1, h2, h3, hn,
              hr, collectParams, UserFields.get_parameter, he]⟩
    · simp only [Bool.not_eq_true] at h2
      have h3 : u.role_id.is_dirty = true := by
        rcases hd with h | h
        · rw [h2] at h
          exact absurd h (by simp)
        · exact h
      exact ⟨[Parameter.Parameter "-set_roleid"], by simp, by
        simp [ModificationCommand.build, User.dirty_results, h1, h2, h3, hn, hr,
          collectParams, UserFields.get_parameter]⟩

/-- C5 witness: building Modify for the default User with name set to "bob"
and role_id set to 7 yields the command `update_user` on object 0 with the
two parameters in declaration order. -/
theorem C5_build_shape_witness :
    ModificationCommand.build userBothDirty CommandType.Modify =
      Except.ok (BuildResult.Command
        { object_id := userBothDirty.get_id,
          command_name := userBothDirty.get_modify_command,
          parameters := [Parameter.Parameter "-set_name",
            Parameter.Parameter "-set_roleid"] }) :=
  (C5_build_shape userBothDirty CommandType.Modify).2.2.1
    (Parameter.Parameter "-set_name") rfl rfl rfl rfl rfl rfl

/-- C6: the User mapping on a dirty name field yields the value parameter
"-set_name" when the new value is non-empty and the reset flag
"-reset_name" when the new value is empty, for every command kind. -/
theorem C6_name_field_encoding (ct : CommandType)
    (old_f new_f : FieldInner String UserFields)
    (hdirty : new_f.is_dirty = true) :
    (new_f.value.isEmpty = false →
      UserFields.get_parameter String.isEmpty UserFields.Name ct old_f new_f =
        Except.ok (Parameter.Parameter "-set_name")) ∧
    (new_f.value.isEmpty = true →
      UserFields.get_parameter String.isEmpty UserFields.Name ct old_f new_f =
        Except.ok (Parameter.Flag "-reset_name")) := by
  constructor <;> intro h <;> simp [UserFields.get_parameter, h]

/-- C6 witness: the default User's name field written to "bob" is dirty and
encodes as `Parameter "-set_name"`. -/
theorem C6_name_field_encoding_witness :
    (((User.default.name.set "bob").1).inner.is_dirty = true) ∧
    UserFields.get_parameter String.isEmpty UserFields.Name CommandType.Modify
      (((User.default.name.set "bob").1).inner.old_snapshot)
      (((User.default.name.set "bob").1).inner) =
      Except.ok (Parameter.Parameter "-set_name") :=
  ⟨by decide,
    (C6_name_field_encoding CommandType.Modify
        (((User.default.name.set "bob").1).inner.old_snapshot)
        (((User.default.name.set "bob").1).inner) (by decide)).1 (by decide)⟩

/-- C7: for every bound v and version, `MinVersion(v).applies_at(version)`
is BelowMin exactly when version < v by the source's order, and Supported
otherwise; and `applies_at` on any filter and version yields one of
Supported, BelowMin, AboveMax. -/
theorem C7_min_version_applies_at (v version : SoftwareVersion) :
    ((VersionFilter.MinVersion v).applies_at version = VersionSupport.BelowMin
      ↔ SoftwareVersion.lt version v = true) ∧
    (SoftwareVersion.lt version v = false →
      (VersionFilter.MinVersion v).applies_at version = VersionSupport.Supported) ∧
    (∀ (f : VersionFilter) (ver : SoftwareVersion),
      f.applies_at ver = VersionSupport.Supported ∨
      f.applies_at ver = VersionSupport.BelowMin ∨
      f.applies_at ver = VersionSupport.AboveMax) := by
  refine ⟨?_, ?_, ?_⟩
  · by_cases h : SoftwareVersion.lt version v <;>
      simp [VersionFilter.applies_at, h]
  · intro h
    simp [VersionFilter.applies_at, h]
  · intro f ver
    cases h : f.applies_at ver <;> simp

/-- C7 witness: the role_id field's declared minimum (4,12) evaluated at the
system version (3,188) reports BelowMin; at (5,0) it reports Supported. -/
theorem C7_min_version_applies_at_witness :
    (VersionFilter.MinVersion (SoftwareVersion.new 4 12)).applies_at
      (SoftwareVersion.new 3 188) = VersionSupport.BelowMin ∧
    (VersionFilter.MinVersion (SoftwareVersion.new 4 12)).applies_at
      (SoftwareVersion.new 5 0) = VersionSupport.Supported :=
  ⟨((C7_min_version_applies_at (SoftwareVersion.new 4 12)
      (SoftwareVersion.new 3 188)).1).mpr (by decide),
    (C7_min_version_applies_at (SoftwareVersion.new 4 12)
      (SoftwareVersion.new 5 0)).2.1 (by decide)⟩

/-- C8: the User mapping invoked on the Id field identity fails as
unreachable code for every command kind, every field-value type (with its
emptiness test) and every pair of field records: the result is the
unreachable error, never a silently produced default Parameter. -/
theorem C8_id_identity_unreachable {FieldType : Type}
    (is_empty : FieldType → Bool) (ct : CommandType)
    (old_f new_f : FieldInner FieldType UserFields) :
    UserFields.get_parameter is_empty UserFields.Id ct old_f new_f =
      Except.error "unreachable" :=
  rfl

/-- C9: clearing any Field — Clean or Dirty, plain or versioned — leaves it
not dirty with no old value, and clearing twice equals clearing once. -/
theorem C9_clear_dirty_resets {T E : Type} (f : Field T E) :
    (f.clear_dirty).is_dirty = false ∧
    (f.clear_dirty).old_value = none ∧
    (f.clear_dirty).clear_dirty = f.clear_dirty := by
  cases f <;>
    simp [Field.clear_dirty, FieldInner.clear_dirty, Field.is_dirty,
      Field.inner, FieldInner.is_dirty, Field.old_value]

/-- C9 witness: clearing the dirty name field of the default User after
writing "bob" leaves it clean with no old value, idempotently. -/
theorem C9_clear_dirty_resets_witness :
    ((((User.default.name.set "bob").1).clear_dirty).is_dirty = false) ∧
    ((((User.default.name.set "bob").1).clear_dirty).old_value = none) ∧
    ((((User.default.name.set "bob").1).clear_dirty).clear_dirty =
      ((User.default.name.set "bob").1).clear_dirty) :=
  C9_clear_dirty_resets ((User.default.name.set "bob").1)

/-- C10: every mutable dereference of a Field leaves it dirty — also when
the caller writes nothing (the dereference alone does not change the value)
or writes any value, including one equal to the current one — and a first
mutation from the Clean state snapshots the pre-mutation value into
old_value. -/
theorem C10_deref_mut_marks_dirty {T E : Type} (f : Field T E) (w : T) :
    ((f.deref_mut).1).is_dirty = true ∧
    ((f.deref_mut).1).get = f.get ∧
    ((f.set w).1).is_dirty = true ∧
    (f.old_value = none → ((f.set w).1).old_value = some f.get) := by
  cases f with
  | Field i =>
      cases ho : i.old_value <;>
        simp_all [Field.deref_mut, FieldInner.deref_mut, Field.set, FieldInner.set,
          Field.is_dirty, Field.inner, FieldInner.is_dirty, Field.get,
          FieldInner.get, Field.old_value]
  | VersionedField i vf =>
      cases ho : i.old_value <;>
        simp_all [Field.deref_mut, FieldInner.deref_mut, Field.set, FieldInner.set,
          Field.is_dirty, Field.inner, FieldInner.is_dirty, Field.get,
          FieldInner.get, Field.old_value]

/-- C10 witness: writing the current value 0 back into the fresh field
`Field.new 0` still marks it dirty and snapshots old_value = some 0. -/
theorem C10_deref_mut_marks_dirty_witness :
    ((((Field.new (0 : Nat) "role_id" UserFields.RoleId).set 0).1).is_dirty = true) ∧
    ((((Field.new (0 : Nat) "role_id" UserFields.RoleId).set 0).1).old_value = some 0) := by
  have h := C10_deref_mut_marks_dirty (Field.new (0 : Nat) "role_id" UserFields.RoleId) 0
  exact ⟨h.2.2.1, by simpa [Field.new, FieldInner.new, Field.get, Field.inner,
    FieldInner.get] using h.2.2.2 rfl⟩

end RustRefl
